import Mathlib

/-!
Shallow embedding of the Pokemon-Card-Expositor firmware, covering the
components the specification's claims are about:

* `DMAImageManager` (buffer allocator and fixed-size transfer engine),
  embedded from `src/unnamed/part_000` (the revision with the defensive
  guards; `src/dma_image_manager.cpp` is an earlier revision of the same
  functions).
* `ImageBrowser` (content scan and cyclic navigation), embedded from the
  second revision in `src/image_browser.cpp` (the one with the `/images`
  directory fallback and the 5000-entry safety cap).
* `SystemManager` slideshow scheduling, embedded from
  `src/unnamed/part_005` (ENABLE_WIFI_CONFIG and ENABLE_SLIDESHOW are
  taken as compiled in, as in the shipped configuration).

External collaborators (SD card, LCD panel, heap, `millis()`, `random()`)
are modelled as oracle inputs: file reads as a function from the read
ordinal to the byte count delivered, the clock as a function from the
loop ordinal to the `millis()` value observed there, and allocation
success per (tier, size) request.  Machine integers are modelled as `Nat`
with explicit `% 2^32` where C unsigned wraparound matters, and C++ `int`
as `Int` (with truncating `%` via `Int.tmod` where the source uses `%`).
-/

namespace Expositor

/-! ## Constants (project_config.h / dma_image_manager.h) -/

def SCREEN_WIDTH : Nat := 1024
def SCREEN_HEIGHT : Nat := 600
def FIXED_IMAGE_WIDTH : Nat := 1024
def FIXED_IMAGE_HEIGHT : Nat := 600

/-- `FIXED_IMAGE_SIZE = FIXED_IMAGE_WIDTH * FIXED_IMAGE_HEIGHT * 2` (RGB565). -/
def FIXED_IMAGE_SIZE : Nat := FIXED_IMAGE_WIDTH * FIXED_IMAGE_HEIGHT * 2

def CPU_BUFFER_SIZE : Nat := 4096

def TIMEOUT_MS : Nat := 30000

/-- `unsigned long` subtraction `a - b` on a 32-bit Arduino core:
wraparound modulo `2^32`. -/
def usub32 (a b : Nat) : Nat := (a % 2 ^ 32 + 2 ^ 32 - b % 2 ^ 32) % 2 ^ 32

/-! ## DMAImageManager environment and results -/

/-- Early-return causes of `DMAImageManager::displayFixedSizeImageDMA`
(src/unnamed/part_000), one per `return false` site before the transfer
loops. -/
inductive DMAErr where
  | notInitialized
  | invalidPath
  | openFailed
  | tooLarge
  | sizeMismatch
  | lcdUnavailable
  | cpuBufferAllocFailed
deriving DecidableEq

/-- The world `displayFixedSizeImageDMA` runs against.  `readBytes k` is
the number of bytes the SD layer delivers for the `k`-th `read` call
(the embedding clamps it by the requested chunk size, as `File::read`
never returns more than asked).  `clock k` is the `millis()` value at the
`k`-th timeout check of the CPU-fallback loop; `startTime` is the
`millis()` sample taken just before that loop. -/
structure DMAEnv where
  initialized : Bool
  filepathValid : Bool
  fileOpens : Bool
  fileSize : Nat
  lcdAvailable : Bool
  dmaEnabled : Bool
  dmaBufferPresent : Bool
  dmaBufferSize : Nat
  cpuBufferAllocOk : Bool
  readBytes : Nat → Nat
  clock : Nat → Nat
  startTime : Nat

/-- Observable outcome of one transfer loop: bytes accumulated, blit
calls issued to the LCD, reads issued against the SD card, whether the
timeout / end-of-file diagnostics fired, and whether the embedding's
fuel ran out (proved unreachable for the fuel the top-level entry point
supplies). -/
structure XferRes where
  transferred : Nat
  blits : Nat
  readsIssued : Nat
  timeoutLogged : Bool
  eofLogged : Bool
  fuelOut : Bool
deriving DecidableEq

/-- Observable outcome of `displayFixedSizeImageDMA`: the returned
`bool`, the early-return cause when one fired, and the transfer-loop
observables (all zero when an early return fired before the loop). -/
structure FixedRes where
  ok : Bool
  err : Option DMAErr
  transferred : Nat
  blits : Nat
  readsIssued : Nat
  timeoutLogged : Bool
  eofLogged : Bool
deriving DecidableEq

/-- The DMA-path loop of `displayFixedSizeImageDMA`:
`while (totalBytesRead < fixedImageSize) { chunk := min bytesToRead rest;
read; if 0 break; drawBitmap(full frame); total += read }`.
`fuel` is an embedding artifact: each continuing iteration transfers at
least one byte, so `FIXED_IMAGE_SIZE + 1` fuel is never exhausted
(`dmaLoop_no_fuelOut`). -/
def dmaLoop (reads : Nat → Nat) (bytesToRead : Nat) :
    Nat → Nat → Nat → Nat → XferRes
  | 0, k, total, blits => ⟨total, blits, k, false, false, true⟩
  | fuel + 1, k, total, blits =>
    if total < FIXED_IMAGE_SIZE then
      let chunkSize := min bytesToRead (FIXED_IMAGE_SIZE - total)
      let bytesRead := min (reads k) chunkSize
      if bytesRead = 0 then ⟨total, blits, k + 1, false, false, false⟩
      else dmaLoop reads bytesToRead fuel (k + 1) (total + bytesRead) (blits + 1)
    else ⟨total, blits, k, false, false, false⟩

/-- The CPU-fallback loop of `displayFixedSizeImageDMA`
(src/unnamed/part_000): a 4096-byte scratch buffer, a 30 s wall-clock
timeout check at the top of each iteration, break on a zero-byte read
(logging "Unexpected end of file"), a clamp so `total` never exceeds
`FIXED_IMAGE_SIZE`, and a full-frame blit per chunk. -/
def cpuLoop (reads clock : Nat → Nat) (startTime : Nat) :
    Nat → Nat → Nat → Nat → XferRes
  | 0, k, total, blits => ⟨total, blits, k, false, false, true⟩
  | fuel + 1, k, total, blits =>
    if total < FIXED_IMAGE_SIZE then
      if TIMEOUT_MS < usub32 (clock k) startTime then
        ⟨total, blits, k, true, false, false⟩
      else
        let bytesRead := min (reads k) CPU_BUFFER_SIZE
        if bytesRead = 0 then ⟨total, blits, k + 1, false, true, false⟩
        else
          let clamped :=
            if FIXED_IMAGE_SIZE < total + bytesRead then FIXED_IMAGE_SIZE - total
            else bytesRead
          cpuLoop reads clock startTime fuel (k + 1) (total + clamped) (blits + 1)
    else ⟨total, blits, k, false, false, false⟩

/-- `DMAImageManager::displayFixedSizeImageDMA` (src/unnamed/part_000,
lines 462–578): guard chain (initialized, filepath, open, 10 MiB cap,
exact-size check, LCD instance), then the DMA-path loop when
`dmaEnabled && dmaBuffer`, else the CPU-fallback loop; returns `true`
after either loop regardless of how the loop ended. -/
def displayFixedSizeImageDMA (env : DMAEnv) : FixedRes :=
  if !env.initialized then ⟨false, some .notInitialized, 0, 0, 0, false, false⟩
  else if !env.filepathValid then ⟨false, some .invalidPath, 0, 0, 0, false, false⟩
  else if !env.fileOpens then ⟨false, some .openFailed, 0, 0, 0, false, false⟩
  else if 10 * 1024 * 1024 < env.fileSize then ⟨false, some .tooLarge, 0, 0, 0, false, false⟩
  else if env.fileSize ≠ FIXED_IMAGE_SIZE then ⟨false, some .sizeMismatch, 0, 0, 0, false, false⟩
  else if !env.lcdAvailable then ⟨false, some .lcdUnavailable, 0, 0, 0, false, false⟩
  else if env.dmaEnabled && env.dmaBufferPresent then
    let bytesToRead := min env.dmaBufferSize FIXED_IMAGE_SIZE
    let r := dmaLoop env.readBytes bytesToRead (FIXED_IMAGE_SIZE + 1) 0 0 0
    ⟨true, none, r.transferred, r.blits, r.readsIssued, r.timeoutLogged, r.eofLogged⟩
  else if !env.cpuBufferAllocOk then ⟨false, some .cpuBufferAllocFailed, 0, 0, 0, false, false⟩
  else
    let r := cpuLoop env.readBytes env.clock env.startTime (FIXED_IMAGE_SIZE + 1) 0 0 0
    ⟨true, none, r.transferred, r.blits, r.readsIssued, r.timeoutLogged, r.eofLogged⟩

/-! ## Buffer allocator (`DMAImageManager::allocateDMABuffer`, part_000) -/

/-- Memory tiers of `heap_caps_malloc`: `MALLOC_CAP_SPIRAM` (external
PSRAM) and `MALLOC_CAP_INTERNAL` (internal SRAM). -/
inductive MemTier where
  | spiram
  | internal
deriving DecidableEq

/-- The heap state `allocateDMABuffer` runs against: free bytes per tier
as reported by `heap_caps_get_free_size`, and whether a
`heap_caps_malloc(size, tier)` request succeeds. -/
structure AllocEnv where
  spiramFree : Nat
  internalFree : Nat
  alloc : MemTier → Nat → Bool

/-- The target size computed at the top of `allocateDMABuffer`:
`availableRAM` is the SPIRAM free size, or the internal free size when
that is zero; the target is `min(SCREEN_WIDTH*SCREEN_HEIGHT*2,
availableRAM/4)` clamped up to a 10-row minimum. -/
def targetBufferSizeInit (e : AllocEnv) : Nat :=
  let availableRAM := if e.spiramFree = 0 then e.internalFree else e.spiramFree
  max (min (SCREEN_WIDTH * SCREEN_HEIGHT * 2) (availableRAM / 4)) (SCREEN_WIDTH * 10 * 2)

/-- The fixed fallback chain of allocation requests, in source order:
the computed target from SPIRAM, then a 50-row buffer from internal RAM,
then a 10-row buffer from internal RAM. -/
def allocChain (e : AllocEnv) : List (MemTier × Nat) :=
  [(MemTier.spiram, targetBufferSizeInit e),
   (MemTier.internal, SCREEN_WIDTH * 50 * 2),
   (MemTier.internal, SCREEN_WIDTH * 10 * 2)]

/-- Outcome of `allocateDMABuffer`: the returned `bool`, the
`dmaBufferSize` member (set only after a successful allocation in
part_000), the tier the buffer lives in, and the `heap_caps_malloc`
requests actually issued, in order. -/
structure AllocRes where
  success : Bool
  dmaBufferSize : Option Nat
  tier : Option MemTier
  attempts : List (MemTier × Nat)
deriving DecidableEq

/-- `DMAImageManager::allocateDMABuffer` (src/unnamed/part_000, lines
402–438): try the computed target from SPIRAM, fall back to a 50-row
internal buffer, then a 10-row internal buffer; fail only when all three
fail; `dmaBufferSize` is assigned only after success. -/
def allocateDMABuffer (e : AllocEnv) : AllocRes :=
  let t1 := targetBufferSizeInit e
  if e.alloc .spiram t1 then ⟨true, some t1, some .spiram, [(.spiram, t1)]⟩
  else
    let t2 := SCREEN_WIDTH * 50 * 2
    if e.alloc .internal t2 then
      ⟨true, some t2, some .internal, [(.spiram, t1), (.internal, t2)]⟩
    else
      let t3 := SCREEN_WIDTH * 10 * 2
      if e.alloc .internal t3 then
        ⟨true, some t3, some .internal, [(.spiram, t1), (.internal, t2), (.internal, t3)]⟩
      else ⟨false, none, none, [(.spiram, t1), (.internal, t2), (.internal, t3)]⟩

/-! ## ImageBrowser (src/image_browser.cpp, second revision) -/

/-- Arduino `String::toLowerCase` on one character: ASCII `A`–`Z` map to
`a`–`z`, everything else is unchanged. -/
def toLowerAscii (c : Char) : Char :=
  if 'A' ≤ c ∧ c ≤ 'Z' then Char.ofNat (c.toNat + 32) else c

/-- Arduino `String::toLowerCase` over a whole string. -/
def lowerStr (s : String) : String := ⟨s.data.map toLowerAscii⟩

/-- Arduino `String::endsWith`. -/
def strEndsWith (s pat : String) : Bool := pat.data.isSuffixOf s.data

/-- `ImageBrowser::isImageFile` (src/image_browser.cpp, lines 201–210):
lower-case the name, then test the fixed extension allow-list. -/
def isImageFile (filename : String) : Bool :=
  let lower := lowerStr filename
  strEndsWith lower ".png" || strEndsWith lower ".jpg" || strEndsWith lower ".jpeg" ||
    strEndsWith lower ".bmp" || strEndsWith lower ".raw"

/-- `strcmp`-style byte order on character lists (codepoint order, which
agrees with byte order on the ASCII names at issue): compare the first
differing character. -/
def charsLe : List Char → List Char → Bool
  | [], _ => true
  | _ :: _, [] => false
  | a :: as, b :: bs => if a = b then charsLe as bs else decide (a < b)

/-- The order `std::sort` applies to `std::vector<String>`: Arduino
`String::operator<` is `strcmp`-based byte order on the path text. -/
def StrLe (a b : String) : Prop := charsLe a.data b.data = true

instance : DecidableRel StrLe := fun a b =>
  inferInstanceAs (Decidable (charsLe a.data b.data = true))

/-- One directory entry as seen by `root.openNextFile()`. -/
structure DirEntry where
  name : String
  isDirectory : Bool
deriving DecidableEq

/-- `ImageBrowser` state: `std::vector<String> imageList` and
`int currentIndex`. -/
structure BrowserState where
  imageList : List String
  currentIndex : Int
deriving DecidableEq

/-- `ImageBrowser::hasImages`: `!imageList.empty()`. -/
def hasImages (s : BrowserState) : Bool := !s.imageList.isEmpty

/-- The safety cap on directory entries visited by one scan. -/
def MAX_SCAN_FILES : Nat := 5000

/-- The path written for a kept entry: `"/images/" + name` when the
`/images` directory is being scanned, `"/" + name` for a root scan. -/
def scannedPath (useImagesDir : Bool) (name : String) : String :=
  (if useImagesDir then "/images/" else "/") ++ name

/-- The enumeration loop of `scanSDCard`: visit entries in order while
`fileCounter < maxFiles`, keeping `scannedPath` of every non-directory
entry that passes `isImageFile`. -/
def collectImages (useImagesDir : Bool) : List DirEntry → Nat → List String
  | [], _ => []
  | e :: rest, fileCounter =>
    if fileCounter < MAX_SCAN_FILES then
      (if !e.isDirectory && isImageFile e.name then [scannedPath useImagesDir e.name] else [])
        ++ collectImages useImagesDir rest (fileCounter + 1)
    else []

/-- `ImageBrowser::scanSDCard` (src/image_browser.cpp, lines 212–268):
clear the list; open `/images`, falling back to the root (an early
`return` if even the root fails to open, leaving the cleared list and
the old cursor); enumerate up to the safety cap, filter, sort
(`std::sort` modelled as insertion sort — on a total antisymmetric order
any sort produces this unique sorted arrangement), and reset the cursor
to 0 when anything was found, `-1` otherwise. -/
def scanSDCard (useImagesDir rootOk : Bool) (entries : List DirEntry)
    (prev : BrowserState) : BrowserState :=
  if !useImagesDir && !rootOk then { prev with imageList := [] }
  else
    let found := collectImages useImagesDir entries 0
    let sortedL := List.insertionSort StrLe found
    { imageList := sortedL, currentIndex := if sortedL.isEmpty then -1 else 0 }

/-- `ImageBrowser::refreshImageList` (src/image_browser.cpp, lines
339–341): simply calls `scanSDCard`. -/
def refreshImageList (useImagesDir rootOk : Bool) (entries : List DirEntry)
    (prev : BrowserState) : BrowserState :=
  scanSDCard useImagesDir rootOk entries prev

/-- `ImageBrowser::nextImage` (src/image_browser.cpp, lines 270–277):
`false` on an empty list, otherwise `currentIndex = (currentIndex + 1) %
imageList.size()` (C++ truncating `%`, hence `Int.tmod`). -/
def nextImage (s : BrowserState) : Bool × BrowserState :=
  if !hasImages s then (false, s)
  else
    (true, { s with
      currentIndex := (s.currentIndex + 1).tmod (s.imageList.length : Int) })

/-- `ImageBrowser::previousImage` (src/image_browser.cpp, lines
279–286): `false` on an empty list, otherwise `currentIndex =
(currentIndex - 1 + imageList.size()) % imageList.size()`. -/
def previousImage (s : BrowserState) : Bool × BrowserState :=
  if !hasImages s then (false, s)
  else
    (true, { s with
      currentIndex :=
        (s.currentIndex - 1 + (s.imageList.length : Int)).tmod (s.imageList.length : Int) })

/-- `ImageBrowser::goToIndex`: bounds-checked absolute positioning. -/
def goToIndex (s : BrowserState) (index : Int) : Bool × BrowserState :=
  if !hasImages s || index < 0 || (s.imageList.length : Int) ≤ index then (false, s)
  else (true, { s with currentIndex := index })

/-! ## SystemManager slideshow scheduler (src/unnamed/part_005) -/

/-- `SlideshowConfig` (src/wifi_config_manager.h), the fields the
scheduler reads. -/
structure SlideshowConfig where
  enabled : Bool
  intervalMs : Nat
  randomOrder : Bool
  loop : Bool
  brightness : Nat
  autoStart : Bool
  disableBrightness : Bool
deriving DecidableEq

/-- `SystemManager` scheduler state: the `slideshowActive` flag,
`unsigned long lastSlideshowUpdate`, `int currentImageIndex` (set only
by the random-order branch), and the owned `ImageBrowser`.  Brightness
is an external collaborator and carries no scheduler state. -/
structure SMState where
  systemInitialized : Bool
  slideshowActive : Bool
  lastSlideshowUpdate : Nat
  currentImageIndex : Int
  browser : BrowserState
deriving DecidableEq

/-- `SystemManager::nextImage` (src/unnamed/part_005, lines 218–226):
no-op when the system is not initialized; otherwise advance the browser
(which itself is a no-op on an empty index) and redisplay. -/
def smNextImage (s : SMState) : SMState :=
  if !s.systemInitialized then s
  else { s with browser := (nextImage s.browser).2 }

/-- `SystemManager::startSlideshow` (src/unnamed/part_005, lines
272–296): rejected when disabled in config; otherwise set the active
flag and record `lastSlideshowUpdate = millis()` (brightness side
effects go to the external brightness manager). -/
def startSlideshow (cfg : SlideshowConfig) (now : Nat) (s : SMState) : Bool × SMState :=
  if !cfg.enabled then (false, s)
  else (true, { s with slideshowActive := true, lastSlideshowUpdate := now })

/-- `SystemManager::stopSlideshow` (src/unnamed/part_005, lines
298–306): clear the active flag, return `true`. -/
def stopSlideshow (s : SMState) : Bool × SMState :=
  (true, { s with slideshowActive := false })

/-- `SystemManager::pauseSlideshow` (src/unnamed/part_005, lines
308–316): clear the active flag, return `true` (identical to
`stopSlideshow` except for the log text). -/
def pauseSlideshow (s : SMState) : Bool × SMState :=
  (true, { s with slideshowActive := false })

/-- `SystemManager::updateSlideshow` (src/unnamed/part_005, lines
318–346).  `now` is the `millis()` sample, `randomDraw` the raw random
value (`random(n)` returns `randomDraw % n`, always in `[0, n)`).  The
second component counts the selection updates performed in this call
(browser-cursor advance or random jump), for the at-most-one-advance
property.  The elapsed test is `unsigned long` arithmetic:
`currentTime - lastSlideshowUpdate >= intervalMs` with wraparound. -/
def updateSlideshow (cfg : SlideshowConfig) (now randomDraw : Nat) (s : SMState) :
    SMState × Nat :=
  if !s.slideshowActive then (s, 0)
  else if usub32 now s.lastSlideshowUpdate < cfg.intervalMs then (s, 0)
  else
    let step :=
      if cfg.randomOrder then
        let total := s.browser.imageList.length
        if 0 < total then
          let draw : Int := ((randomDraw % total : Nat) : Int)
          ({ s with currentImageIndex := draw, browser := (goToIndex s.browser draw).2 }, 1)
        else (s, 0)
      else
        if !s.systemInitialized then (s, 0)
        else if hasImages s.browser then
          ({ s with browser := (nextImage s.browser).2 }, 1)
        else (s, 0)
    let s2 := { step.1 with lastSlideshowUpdate := now }
    if !cfg.loop && (s2.browser.imageList.length : Int) - 1 ≤ s2.currentImageIndex then
      ({ s2 with slideshowActive := false }, step.2)
    else (s2, step.2)

/-! ## Concrete inputs used by the claim theorems and witnesses -/

/-- A well-formed environment for the buffered (DMA) fixed-size path
whose storage delivers zero bytes on the very first read. -/
def envC1 : DMAEnv :=
  { initialized := true, filepathValid := true, fileOpens := true,
    fileSize := FIXED_IMAGE_SIZE, lcdAvailable := true, dmaEnabled := true,
    dmaBufferPresent := true, dmaBufferSize := 4096, cpuBufferAllocOk := true,
    readBytes := fun _ => 0, clock := fun _ => 0, startTime := 0 }

/-- Environment holding a 20 MiB file — a size that differs from the
expected 1024*600*2 bytes. -/
def envC2big : DMAEnv :=
  { envC1 with fileSize := 20 * 1024 * 1024 }

/-- Environment holding the spec's concrete 1,000,000-byte file. -/
def envC2w : DMAEnv :=
  { envC1 with fileSize := 1000000 }

/-- A correct-size file displayed over the CPU-fallback path (no DMA
buffer), with the storage device dribbling one byte per read and the
clock frozen at 0 (no timeout ever fires). -/
def envC3 : DMAEnv :=
  { envC1 with
    dmaEnabled := false
    dmaBufferPresent := false
    readBytes := fun _ => 1 }

/-- The CPU-fallback path with a clock that jumps past the 30 s timeout
before the first read. -/
def envC3w : DMAEnv :=
  { envC3 with clock := fun _ => 40000 }

/-- The heap environment in which every allocation request fails. -/
def allocEnvW : AllocEnv := { spiramFree := 0, internalFree := 0, alloc := fun _ _ => false }

/-- Slideshow configuration with loop mode disabled and sequential
order. -/
def c7Cfg : SlideshowConfig :=
  { enabled := true, intervalMs := 1000, randomOrder := false, loop := false,
    brightness := 128, autoStart := false, disableBrightness := false }

/-- State whose browser cursor sits on the middle of three images, with
the scheduler's own `currentImageIndex` still at its initial 0. -/
def c7State : SMState :=
  { systemInitialized := true, slideshowActive := true, lastSlideshowUpdate := 0,
    currentImageIndex := 0,
    browser := { imageList := ["/a.raw", "/b.raw", "/c.raw"], currentIndex := 1 } }

/-- Case-insensitive path order — the order the claim asserts for the
scan result (the comparison the code would need to use for it). -/
def ciLe (a b : String) : Bool := charsLe (lowerStr a).data (lowerStr b).data

/-- The spec's concrete scenario: supported files `b.raw, a.raw, f.raw,
c.raw` as enumerated by the file system. -/
def demoEntries : List DirEntry :=
  [⟨"b.raw", false⟩, ⟨"a.raw", false⟩, ⟨"f.raw", false⟩, ⟨"c.raw", false⟩]

/-- An empty, never-scanned browser. -/
def browser0 : BrowserState := ⟨[], 0⟩

/-! ## Helper lemmas -/

theorem dmaLoop_no_fuelOut (reads : Nat → Nat) (bytesToRead : Nat) :
    ∀ fuel k total blits, FIXED_IMAGE_SIZE - total < fuel →
      (dmaLoop reads bytesToRead fuel k total blits).fuelOut = false := by
  intro fuel
  induction fuel with
  | zero => intro k total blits h; omega
  | succ n ih =>
    intro k total blits h
    rw [dmaLoop]
    by_cases hlt : total < FIXED_IMAGE_SIZE
    · simp only [hlt, if_true]
      by_cases hz : min (reads k) (min bytesToRead (FIXED_IMAGE_SIZE - total)) = 0
      · simp [hz]
      · simp only [hz, if_false]
        exact ih _ _ _ (by omega)
    · simp [hlt]

theorem cpuLoop_no_fuelOut (reads clock : Nat → Nat) (startTime : Nat) :
    ∀ fuel k total blits, FIXED_IMAGE_SIZE - total < fuel →
      (cpuLoop reads clock startTime fuel k total blits).fuelOut = false := by
  intro fuel
  induction fuel with
  | zero => intro k total blits h; omega
  | succ n ih =>
    intro k total blits h
    rw [cpuLoop]
    by_cases hlt : total < FIXED_IMAGE_SIZE
    · simp only [hlt, if_true]
      by_cases ht : TIMEOUT_MS < usub32 (clock k) startTime
      · simp [ht]
      · simp only [ht, if_false]
        by_cases hz : min (reads k) CPU_BUFFER_SIZE = 0
        · simp [hz]
        · simp only [hz, if_false]
          by_cases hc : FIXED_IMAGE_SIZE < total + min (reads k) CPU_BUFFER_SIZE
          · simp only [hc, if_true]
            exact ih _ _ _ (by omega)
          · simp only [hc, if_false]
            exact ih _ _ _ (by omega)
    · simp [hlt]

/-- On the CPU-fallback path (all guards pass, no DMA buffer, scratch
buffer allocation succeeds), `displayFixedSizeImageDMA` is exactly the
packaged CPU loop. -/
theorem displayFixed_cpu_eq (env : DMAEnv)
    (hInit : env.initialized = true) (hPath : env.filepathValid = true)
    (hOpen : env.fileOpens = true) (hSize : env.fileSize = FIXED_IMAGE_SIZE)
    (hLcd : env.lcdAvailable = true)
    (hNoDma : (env.dmaEnabled && env.dmaBufferPresent) = false)
    (hBuf : env.cpuBufferAllocOk = true) :
    displayFixedSizeImageDMA env =
      (let r := cpuLoop env.readBytes env.clock env.startTime (FIXED_IMAGE_SIZE + 1) 0 0 0
       ⟨true, none, r.transferred, r.blits, r.readsIssued, r.timeoutLogged, r.eofLogged⟩) := by
  have hBig : ¬ (10 * 1024 * 1024 < env.fileSize) := by rw [hSize]; decide
  simp [displayFixedSizeImageDMA, hInit, hPath, hOpen, hSize, hLcd, hNoDma, hBuf, hBig]
  all_goals decide

/-- The CPU loop issues at most one read per remaining byte (each
continuing read transfers at least one byte), plus the possible final
zero-byte read. -/
theorem cpuLoop_reads_le (reads clock : Nat → Nat) (startTime : Nat) :
    ∀ fuel k total blits,
      (cpuLoop reads clock startTime fuel k total blits).readsIssued ≤
        k + (FIXED_IMAGE_SIZE - total) := by
  intro fuel
  induction fuel with
  | zero => intro k total blits; simp [cpuLoop]
  | succ n ih =>
    intro k total blits
    rw [cpuLoop]
    by_cases hlt : total < FIXED_IMAGE_SIZE
    · simp only [hlt, if_true]
      by_cases ht : TIMEOUT_MS < usub32 (clock k) startTime
      · simp [ht]
      · simp only [ht, if_false]
        set m := min (reads k) CPU_BUFFER_SIZE with hm
        by_cases hz : m = 0
        · simp [hz]
          omega
        · simp only [hz, if_false]
          by_cases hc : FIXED_IMAGE_SIZE < total + m
          · simp only [hc, if_true]
            have := ih (k + 1) (total + (FIXED_IMAGE_SIZE - total)) (blits + 1)
            omega
          · simp only [hc, if_false]
            have := ih (k + 1) (total + m) (blits + 1)
            omega
    · simp [hlt]

/-- Closed form of the CPU loop against a device dribbling one byte per
read with a frozen clock: the loop runs one read per missing byte to
completion, with no timeout and no end-of-file diagnostic. -/
theorem cpuLoop_ones :
    ∀ fuel total blits k, total ≤ FIXED_IMAGE_SIZE → FIXED_IMAGE_SIZE - total < fuel →
      cpuLoop (fun _ => 1) (fun _ => 0) 0 fuel k total blits =
        ⟨FIXED_IMAGE_SIZE, blits + (FIXED_IMAGE_SIZE - total),
         k + (FIXED_IMAGE_SIZE - total), false, false, false⟩ := by
  intro fuel
  induction fuel with
  | zero => intro total blits k h1 h2; omega
  | succ n ih =>
    intro total blits k h1 h2
    rw [cpuLoop]
    by_cases hlt : total < FIXED_IMAGE_SIZE
    · rw [if_pos hlt, if_neg (by decide : ¬ (TIMEOUT_MS < usub32 0 0))]
      dsimp only
      have hmm : min 1 CPU_BUFFER_SIZE = 1 := by decide
      rw [hmm, if_neg one_ne_zero,
        if_neg (by omega : ¬ (FIXED_IMAGE_SIZE < total + 1)),
        ih (total + 1) (blits + 1) (k + 1) (by omega) (by omega)]
      simp [XferRes.mk.injEq]
      all_goals omega
    · rw [if_neg hlt]
      simp [XferRes.mk.injEq]
      all_goals omega

theorem charsLe_cons (x y : Char) (xs ys : List Char) :
    charsLe (x :: xs) (y :: ys) = if x = y then charsLe xs ys else decide (x < y) := rfl

theorem charsLe_total : ∀ a b : List Char, charsLe a b = true ∨ charsLe b a = true := by
  intro a
  induction a with
  | nil => intro b; left; rfl
  | cons x xs ih =>
    intro b
    cases b with
    | nil => right; rfl
    | cons y ys =>
      by_cases hxy : x = y
      · subst hxy
        rcases ih ys with h | h
        · left; rw [charsLe_cons, if_pos rfl]; exact h
        · right; rw [charsLe_cons, if_pos rfl]; exact h
      · rcases lt_or_gt_of_ne hxy with h | h
        · left
          rw [charsLe_cons, if_neg hxy, decide_eq_true_eq]
          exact h
        · right
          rw [charsLe_cons, if_neg (Ne.symm hxy), decide_eq_true_eq]
          exact h

theorem charsLe_trans :
    ∀ a b c : List Char, charsLe a b = true → charsLe b c = true → charsLe a c = true := by
  intro a
  induction a with
  | nil => intro b c h1 h2; rfl
  | cons x xs ih =>
    intro b c h1 h2
    cases b with
    | nil => simp [charsLe] at h1
    | cons y ys =>
      cases c with
      | nil => simp [charsLe] at h2
      | cons z zs =>
        by_cases hxy : x = y <;> by_cases hyz : y = z
        · subst hxy; subst hyz
          rw [charsLe_cons, if_pos rfl] at h1 h2 ⊢
          exact ih ys zs h1 h2
        · subst hxy
          rw [charsLe_cons, if_neg hyz, decide_eq_true_eq] at h2
          rw [charsLe_cons, if_neg (ne_of_lt h2), decide_eq_true_eq]
          exact h2
        · subst hyz
          rw [charsLe_cons, if_neg hxy, decide_eq_true_eq] at h1
          rw [charsLe_cons, if_neg hxy, decide_eq_true_eq]
          exact h1
        · rw [charsLe_cons, if_neg hxy, decide_eq_true_eq] at h1
          rw [charsLe_cons, if_neg hyz, decide_eq_true_eq] at h2
          have hxz : x < z := lt_trans h1 h2
          rw [charsLe_cons, if_neg (ne_of_lt hxz), decide_eq_true_eq]
          exact hxz

theorem charsLe_antisymm :
    ∀ a b : List Char, charsLe a b = true → charsLe b a = true → a = b := by
  intro a
  induction a with
  | nil =>
    intro b h1 h2
    cases b with
    | nil => rfl
    | cons y ys => simp [charsLe] at h2
  | cons x xs ih =>
    intro b h1 h2
    cases b with
    | nil => simp [charsLe] at h1
    | cons y ys =>
      by_cases hxy : x = y
      · subst hxy
        rw [charsLe_cons, if_pos rfl] at h1 h2
        rw [ih ys h1 h2]
      · rw [charsLe_cons, if_neg hxy, decide_eq_true_eq] at h1
        rw [charsLe_cons, if_neg (Ne.symm hxy), decide_eq_true_eq] at h2
        exact absurd h2 (not_lt_of_gt h1)

theorem strLe_total (a b : String) : StrLe a b ∨ StrLe b a := charsLe_total a.data b.data

theorem strLe_trans (a b c : String) : StrLe a b → StrLe b c → StrLe a c :=
  charsLe_trans a.data b.data c.data

theorem strLe_antisymm (a b : String) : StrLe a b → StrLe b a → a = b := by
  intro h1 h2
  obtain ⟨la⟩ := a
  obtain ⟨lb⟩ := b
  exact congrArg String.mk (charsLe_antisymm la lb h1 h2)

/-- The scan's enumeration loop equals a plain filter-map whenever the
enumeration fits under the 5000-entry safety cap (no truncation). -/
theorem collectImages_eq_filterMap (u : Bool) :
    ∀ (entries : List DirEntry) (c : Nat), c + entries.length ≤ MAX_SCAN_FILES →
      collectImages u entries c =
        entries.filterMap (fun e =>
          if !e.isDirectory && isImageFile e.name then some (scannedPath u e.name)
          else none) := by
  intro entries
  induction entries with
  | nil => intro c h; simp [collectImages]
  | cons e rest ih =>
    intro c h
    have hlen : c + (e :: rest).length = c + rest.length + 1 := by
      simp [List.length_cons]; omega
    have hc : c < MAX_SCAN_FILES := by omega
    rw [collectImages, if_pos hc, ih (c + 1) (by rw [hlen] at h; omega)]
    cases hd : e.isDirectory <;> cases hi : isImageFile e.name <;>
      simp [List.filterMap_cons, hd, hi]

theorem targetBufferSizeInit_pos (e : AllocEnv) : 0 < targetBufferSizeInit e := by
  have h : (0 : Nat) < SCREEN_WIDTH * 10 * 2 := by norm_num [SCREEN_WIDTH]
  calc 0 < SCREEN_WIDTH * 10 * 2 := h
    _ ≤ targetBufferSizeInit e := le_max_right _ _

theorem emod_roundtrip (i n : Int) (h0 : 0 ≤ i) (h1 : i < n) :
    ((i + 1) % n - 1 + n) % n = i := by
  rcases lt_or_eq_of_le (Int.add_one_le_iff.mpr h1) with h | h
  · rw [Int.emod_eq_of_lt (by omega) h]
    have he : i + 1 - 1 + n = i + n * 1 := by ring
    rw [he, Int.add_mul_emod_self_left, Int.emod_eq_of_lt h0 h1]
  · rw [h, Int.emod_self]
    have he : (0 : Int) - 1 + n = i := by omega
    rw [he, Int.emod_eq_of_lt h0 h1]

theorem tmod_roundtrip (i n : Int) (h0 : 0 ≤ i) (h1 : i < n) :
    ((i + 1).tmod n - 1 + n).tmod n = i := by
  have ht1 : (i + 1).tmod n = (i + 1) % n := Int.tmod_eq_emod (by omega) (by omega)
  have hnn : 0 ≤ (i + 1) % n := Int.emod_nonneg _ (by omega)
  rw [ht1, Int.tmod_eq_emod (by omega) (by omega), emod_roundtrip i n h0 h1]

/-! ## Claim C1 — truncated fixed-size transfer still reports success -/

/-- C1: evidence that the code contradicts the claim.  On a file of the
correct size (1024*600*2 bytes) whose first read returns zero bytes, the
buffered path of `displayFixedSizeImageDMA` breaks out of its loop with
0 of the 1228800 expected bytes transferred — and still returns success
(`true`, no error), instead of failing with a Truncated error. -/
theorem C1_truncated_transfer_returns_ok :
    (displayFixedSizeImageDMA envC1).readsIssued = 1 ∧
    (displayFixedSizeImageDMA envC1).transferred = 0 ∧
    (displayFixedSizeImageDMA envC1).ok = true ∧
    (displayFixedSizeImageDMA envC1).err = none := by decide

/-! ## Claim C2 — wrong-size files are rejected before any read -/

/-- C2 counterexample: a 20 MiB file's size differs from 1024*600*2 and
the operation does fail — but with the 10 MiB "file too large"
diagnostic, not the size-mismatch one, so the claim that every
wrong-size file fails with a size-mismatch error is false as stated. -/
theorem C2_too_large_is_not_size_mismatch :
    envC2big.fileSize ≠ FIXED_IMAGE_SIZE ∧
    (displayFixedSizeImageDMA envC2big).ok = false ∧
    (displayFixedSizeImageDMA envC2big).err = some DMAErr.tooLarge ∧
    (displayFixedSizeImageDMA envC2big).err ≠ some DMAErr.sizeMismatch := by decide

/-- C2 amended: for every openable file whose size differs from
1024*600*2 the operation fails before issuing any read or any blit; the
diagnostic is the file-too-large one for files over 10 MiB and the
size-mismatch one otherwise. -/
theorem C2_wrong_size_rejected_before_io (env : DMAEnv)
    (hInit : env.initialized = true) (hPath : env.filepathValid = true)
    (hOpen : env.fileOpens = true) (hSize : env.fileSize ≠ FIXED_IMAGE_SIZE) :
    (displayFixedSizeImageDMA env).ok = false ∧
    (displayFixedSizeImageDMA env).readsIssued = 0 ∧
    (displayFixedSizeImageDMA env).blits = 0 ∧
    (displayFixedSizeImageDMA env).err =
      some (if 10 * 1024 * 1024 < env.fileSize then DMAErr.tooLarge
            else DMAErr.sizeMismatch) := by
  by_cases hBig : 10 * 1024 * 1024 < env.fileSize
  · simp [displayFixedSizeImageDMA, hInit, hPath, hOpen, hBig]
  · simp [displayFixedSizeImageDMA, hInit, hPath, hOpen, hBig, hSize]

/-- C2 witness: the spec's concrete 1,000,000-byte file is rejected with
the size-mismatch diagnostic, before any read and with zero blits. -/
theorem C2_wrong_size_witness :
    (displayFixedSizeImageDMA envC2w).ok = false ∧
    (displayFixedSizeImageDMA envC2w).readsIssued = 0 ∧
    (displayFixedSizeImageDMA envC2w).blits = 0 ∧
    (displayFixedSizeImageDMA envC2w).err = some DMAErr.sizeMismatch := by
  have h := C2_wrong_size_rejected_before_io envC2w rfl rfl rfl (by decide)
  simpa using h

/-! ## Claim C3 — bounds on the unbuffered fallback loop -/

/-- C3 counterexample: on the CPU-fallback path, a device dribbling one
byte per read (clock frozen, so no timeout) drives the loop through
1228800 read iterations — vastly more than the claimed cap of
`expectedBytes / scratchSize` plus a safety margin (300 + 2) — and the
loop is never aborted: it runs to completion with no diagnostic.  The
claimed iteration bound does not exist on this path. -/
theorem C3_no_iteration_cap_on_fixed_path :
    (displayFixedSizeImageDMA envC3).readsIssued = FIXED_IMAGE_SIZE ∧
    FIXED_IMAGE_SIZE / CPU_BUFFER_SIZE + 2 < (displayFixedSizeImageDMA envC3).readsIssued ∧
    (displayFixedSizeImageDMA envC3).timeoutLogged = false ∧
    (displayFixedSizeImageDMA envC3).eofLogged = false ∧
    (displayFixedSizeImageDMA envC3).transferred = FIXED_IMAGE_SIZE ∧
    (displayFixedSizeImageDMA envC3).ok = true := by
  have heq := displayFixed_cpu_eq envC3 rfl rfl rfl rfl rfl rfl rfl
  rw [heq]
  have hloop : cpuLoop envC3.readBytes envC3.clock envC3.startTime
      (FIXED_IMAGE_SIZE + 1) 0 0 0 =
      ⟨FIXED_IMAGE_SIZE, 0 + (FIXED_IMAGE_SIZE - 0), 0 + (FIXED_IMAGE_SIZE - 0),
       false, false, false⟩ :=
    cpuLoop_ones (FIXED_IMAGE_SIZE + 1) 0 0 0 (by omega) (by omega)
  rw [hloop]
  refine ⟨by simp, ?_, rfl, rfl, by simp, rfl⟩
  show FIXED_IMAGE_SIZE / CPU_BUFFER_SIZE + 2 < 0 + (FIXED_IMAGE_SIZE - 0)
  decide

/-- C3 amended: the fallback loop is bounded by the 30-second wall-clock
timeout — exceeding it aborts the loop immediately with the Timeout
diagnostic and nothing transferred when it is already exceeded at the
first check — and, independently, the loop can never run forever: it
performs at most `expectedBytes` (1228800) read iterations because every
continuing read transfers at least one byte.  No
`expectedBytes / scratchSize + margin` iteration cap exists on this
path (that cap lives in `displayRAWRGB565DMA`). -/
theorem C3_fallback_bounded (env : DMAEnv)
    (hInit : env.initialized = true) (hPath : env.filepathValid = true)
    (hOpen : env.fileOpens = true) (hSize : env.fileSize = FIXED_IMAGE_SIZE)
    (hLcd : env.lcdAvailable = true)
    (hNoDma : (env.dmaEnabled && env.dmaBufferPresent) = false)
    (hBuf : env.cpuBufferAllocOk = true) :
    (displayFixedSizeImageDMA env).readsIssued ≤ FIXED_IMAGE_SIZE ∧
    (TIMEOUT_MS < usub32 (env.clock 0) env.startTime →
      (displayFixedSizeImageDMA env).timeoutLogged = true ∧
      (displayFixedSizeImageDMA env).transferred = 0 ∧
      (displayFixedSizeImageDMA env).blits = 0) := by
  rw [displayFixed_cpu_eq env hInit hPath hOpen hSize hLcd hNoDma hBuf]
  dsimp only
  constructor
  · have h := cpuLoop_reads_le env.readBytes env.clock env.startTime
      (FIXED_IMAGE_SIZE + 1) 0 0 0
    simpa using h
  · intro ht
    rw [cpuLoop, if_pos (by decide : 0 < FIXED_IMAGE_SIZE), if_pos ht]
    exact ⟨rfl, rfl, rfl⟩

/-- C3 witness: a clock already 40 s past the start aborts the fallback
loop at its first check with the Timeout diagnostic and nothing
transferred. -/
theorem C3_fallback_bounded_witness :
    (displayFixedSizeImageDMA envC3w).timeoutLogged = true ∧
    (displayFixedSizeImageDMA envC3w).transferred = 0 ∧
    (displayFixedSizeImageDMA envC3w).readsIssued ≤ FIXED_IMAGE_SIZE := by
  have h := C3_fallback_bounded envC3w rfl rfl rfl rfl rfl rfl rfl
  have h2 := h.2 (by decide)
  exact ⟨h2.1, h2.2.1, h.1⟩

/-! ## Claim C4 — allocator fallback chain -/

/-- C4: `allocateDMABuffer` issues its allocation requests along the
fixed three-step chain (computed target from SPIRAM, then the 50-row
internal buffer, then the 10-row internal buffer), attempting each step
only after the previous failed; it reports failure exactly when all
three requests fail (in which case all three were attempted); every
successful result carries a positive capacity, namely the size requested
by the succeeding (final) attempt. -/
theorem C4_allocator_fallback (e : AllocEnv) :
    (allocateDMABuffer e).attempts = (allocChain e).take (allocateDMABuffer e).attempts.length ∧
    ((allocateDMABuffer e).success = false ↔
      (e.alloc .spiram (targetBufferSizeInit e) = false ∧
       e.alloc .internal (SCREEN_WIDTH * 50 * 2) = false ∧
       e.alloc .internal (SCREEN_WIDTH * 10 * 2) = false)) ∧
    ((allocateDMABuffer e).success = false → (allocateDMABuffer e).attempts = allocChain e) ∧
    (∀ sz, (allocateDMABuffer e).dmaBufferSize = some sz → 0 < sz) ∧
    ((allocateDMABuffer e).success = true →
      (allocateDMABuffer e).dmaBufferSize =
        ((allocateDMABuffer e).attempts.getLast?).map Prod.snd) := by
  have hpos := targetBufferSizeInit_pos e
  cases h1 : e.alloc .spiram (targetBufferSizeInit e) <;>
    cases h2 : e.alloc .internal (SCREEN_WIDTH * 50 * 2) <;>
      cases h3 : e.alloc .internal (SCREEN_WIDTH * 10 * 2) <;>
        refine ⟨?_, ?_, ?_, ?_, ?_⟩ <;>
          simp_all [allocateDMABuffer, allocChain, SCREEN_WIDTH]

/-- C4 witness: with all three tiers failing, the allocator reports
failure and has attempted the entire chain. -/
theorem C4_allocator_fallback_witness :
    (allocateDMABuffer allocEnvW).success = false ∧
    (allocateDMABuffer allocEnvW).attempts = allocChain allocEnvW := by
  have h := C4_allocator_fallback allocEnvW
  exact ⟨h.2.1.mpr (by decide), h.2.2.1 (h.2.1.mpr (by decide))⟩

/-! ## Claim C5 — scan filtering, ordering, determinism -/

/-- C5 counterexample: scanning the supported files `B.raw, a.raw`
produces the index `["/B.raw", "/a.raw"]` — `std::sort` over Arduino
`String` is byte-order, so it is NOT sorted in case-insensitive lexical
path order (case-insensitively `/a.raw` precedes `/B.raw`), refuting the
claimed ordering. -/
theorem C5_sort_is_case_sensitive :
    (scanSDCard false true [⟨"B.raw", false⟩, ⟨"a.raw", false⟩] browser0).imageList =
      ["/B.raw", "/a.raw"] ∧
    ¬ List.Sorted (fun a b => ciLe a b = true)
        (scanSDCard false true [⟨"B.raw", false⟩, ⟨"a.raw", false⟩] browser0).imageList := by
  constructor
  · decide
  · decide

/-- C5 amended: `scanSDCard` filters to the supported extensions
case-insensitively (the filter depends only on the lower-cased name) and
produces an index sorted in case-SENSITIVE (byte-order) lexical path
order; for enumerations within the 5000-entry safety cap the result is
identical for any enumeration order of the same file set; the concrete
scenario `b.raw, a.raw, f.raw, c.raw ↦ [a, b, c, f]` holds (those names
share one case, where the two orders coincide). -/
theorem C5_scan_filter_sort_deterministic :
    (∀ s t : String, lowerStr s = lowerStr t → isImageFile s = isImageFile t) ∧
    (∀ (u rk : Bool) (entries : List DirEntry) (p : BrowserState),
      List.Sorted StrLe (scanSDCard u rk entries p).imageList) ∧
    (∀ (u : Bool) (e₁ e₂ : List DirEntry) (p₁ p₂ : BrowserState),
      e₁.Perm e₂ → e₁.length ≤ MAX_SCAN_FILES →
      (scanSDCard u true e₁ p₁).imageList = (scanSDCard u true e₂ p₂).imageList) ∧
    (scanSDCard false true demoEntries browser0).imageList =
      ["/a.raw", "/b.raw", "/c.raw", "/f.raw"] := by
  haveI : IsTrans String StrLe := ⟨strLe_trans⟩
  haveI : IsTotal String StrLe := ⟨strLe_total⟩
  haveI : IsAntisymm String StrLe := ⟨strLe_antisymm⟩
  refine ⟨?_, ?_, ?_, ?_⟩
  · intro s t h
    simp only [isImageFile]
    rw [h]
  · intro u rk entries p
    by_cases hg : (!u && !rk) = true
    · simp only [scanSDCard, hg, if_pos]
      exact List.sorted_nil
    · simp only [scanSDCard, hg, if_neg, not_false_eq_true, Bool.false_eq_true]
      exact List.sorted_insertionSort _ _
  · intro u e₁ e₂ p₁ p₂ hp hlen
    have hlen2 : e₂.length ≤ MAX_SCAN_FILES := hp.length_eq ▸ hlen
    have h1 : (scanSDCard u true e₁ p₁).imageList =
        List.insertionSort StrLe (collectImages u e₁ 0) := by
      simp [scanSDCard]
    have h2 : (scanSDCard u true e₂ p₂).imageList =
        List.insertionSort StrLe (collectImages u e₂ 0) := by
      simp [scanSDCard]
    rw [h1, h2, collectImages_eq_filterMap u e₁ 0 (by omega),
      collectImages_eq_filterMap u e₂ 0 (by omega)]
    have hfm := hp.filterMap (fun e =>
      if !e.isDirectory && isImageFile e.name then some (scannedPath u e.name) else none)
    exact List.eq_of_perm_of_sorted
      ((List.perm_insertionSort _ _).trans (hfm.trans (List.perm_insertionSort _ _).symm))
      (List.sorted_insertionSort _ _) (List.sorted_insertionSort _ _)
  · decide

/-- C5 witness: two enumeration orders of the same two files yield the
same index, and the spec's four-file scenario yields `[a, b, c, f]`. -/
theorem C5_scan_witness :
    (scanSDCard false true [⟨"b.raw", false⟩, ⟨"a.raw", false⟩] browser0).imageList =
      (scanSDCard false true [⟨"a.raw", false⟩, ⟨"b.raw", false⟩] browser0).imageList ∧
    (scanSDCard false true demoEntries browser0).imageList =
      ["/a.raw", "/b.raw", "/c.raw", "/f.raw"] :=
  ⟨C5_scan_filter_sort_deterministic.2.2.1 false _ _ browser0 browser0
      (List.Perm.swap _ _ _) (by decide),
   C5_scan_filter_sort_deterministic.2.2.2⟩

/-! ## Claim C6 — one advance per tick, no-op otherwise -/

/-- C6: per `updateSlideshow` call the selection is updated at most once
no matter how far `now` is past `lastSlideshowUpdate`, and the call
leaves the state entirely unchanged unless the slideshow is active and
the (wraparound) elapsed time has reached `intervalMs`. -/
theorem C6_tick_at_most_one_advance (cfg : SlideshowConfig) (now draw : Nat) (s : SMState) :
    (updateSlideshow cfg now draw s).2 ≤ 1 ∧
    (s.slideshowActive = false → updateSlideshow cfg now draw s = (s, 0)) ∧
    (usub32 now s.lastSlideshowUpdate < cfg.intervalMs →
      updateSlideshow cfg now draw s = (s, 0)) := by
  refine ⟨?_, fun hA => by simp [updateSlideshow, hA], fun hT => ?_⟩
  · unfold updateSlideshow
    dsimp only
    repeat' split
    all_goals simp
  · by_cases hA : s.slideshowActive
    · simp [updateSlideshow, hA, hT]
    · simp [updateSlideshow, hA]

/-- C6 witness: a concrete active state whose interval has not yet
elapsed is left unchanged by the tick. -/
theorem C6_tick_witness :
    updateSlideshow
        ⟨true, 5000, false, true, 128, false, false⟩ 4999 0
        ⟨true, true, 1000, 0, ⟨["/a.raw"], 0⟩⟩ =
      (⟨true, true, 1000, 0, ⟨["/a.raw"], 0⟩⟩, 0) :=
  (C6_tick_at_most_one_advance _ _ _ _).2.2 (by decide)

/-! ## Claim C7 — stop-at-end check uses a stale index -/

/-- C7: evidence that the code contradicts the claim.  With loop mode
off, the tick advances the browser cursor onto the last index (2 of
0..2) — yet the scheduler stays active, because the stop check compares
`SystemManager::currentImageIndex` (still 0; the sequential branch never
updates it) against `getImageCount() - 1`, not the browser cursor. -/
theorem C7_no_stop_at_last_index :
    (updateSlideshow c7Cfg 1000 0 c7State).1.browser.currentIndex = 2 ∧
    ((updateSlideshow c7Cfg 1000 0 c7State).1.browser.imageList.length : Int) - 1 = 2 ∧
    (updateSlideshow c7Cfg 1000 0 c7State).1.currentImageIndex = 0 ∧
    (updateSlideshow c7Cfg 1000 0 c7State).1.slideshowActive = true := by decide

/-! ## Claim C8 — cyclic navigation -/

/-- C8: `nextImage`/`previousImage` return `false` and change nothing on
an empty index, return `true` on a non-empty one, move the cursor by ±1
modulo the index length, and `previousImage` undoes `nextImage` from any
valid cursor. -/
theorem C8_next_previous_cursor (s : BrowserState) :
    (hasImages s = false → nextImage s = (false, s) ∧ previousImage s = (false, s)) ∧
    (hasImages s = true → (nextImage s).1 = true ∧ (previousImage s).1 = true) ∧
    (0 ≤ s.currentIndex → s.currentIndex < (s.imageList.length : Int) →
      (nextImage s).2.currentIndex = (s.currentIndex + 1) % (s.imageList.length : Int) ∧
      (previousImage s).2.currentIndex =
        (s.currentIndex - 1 + (s.imageList.length : Int)) % (s.imageList.length : Int) ∧
      (previousImage (nextImage s).2).2 = s) := by
  obtain ⟨L, i⟩ := s
  refine ⟨fun h => ?_, fun h => ?_, fun h0 h1 => ?_⟩
  · simp [nextImage, previousImage, h]
  · simp [nextImage, previousImage, h]
  · dsimp only at h0 h1 ⊢
    have hL : L ≠ [] := by
      intro hE
      subst hE
      simp only [List.length_nil, Nat.cast_zero] at h1
      omega
    have hImg : hasImages ⟨L, i⟩ = true := by
      simp [hasImages, hL]
    have hImg2 : ∀ j : Int, hasImages ⟨L, j⟩ = true := fun _ => hImg
    have hn0 : (0 : Int) ≤ (L.length : Int) := by positivity
    refine ⟨?_, ?_, ?_⟩
    · simp only [nextImage, hImg, Bool.not_true, Bool.false_eq_true, if_neg, not_false_eq_true]
      exact Int.tmod_eq_emod (by omega) hn0
    · simp only [previousImage, hImg, Bool.not_true, Bool.false_eq_true, if_neg,
        not_false_eq_true]
      exact Int.tmod_eq_emod (by omega) hn0
    · simp only [nextImage, previousImage, hImg, hImg2, Bool.not_true, Bool.false_eq_true,
        if_neg, not_false_eq_true]
      simp only [BrowserState.mk.injEq, true_and]
      exact tmod_roundtrip i (L.length : Int) h0 h1

/-- C8 witness: on the concrete three-image index, `nextImage` from the
last cursor succeeds and `previousImage` restores it. -/
theorem C8_next_previous_witness :
    (nextImage (⟨["/a.raw", "/b.raw", "/c.raw"], 2⟩ : BrowserState)).1 = true ∧
    (previousImage (nextImage (⟨["/a.raw", "/b.raw", "/c.raw"], 2⟩ : BrowserState)).2).2 =
      (⟨["/a.raw", "/b.raw", "/c.raw"], 2⟩ : BrowserState) :=
  ⟨((C8_next_previous_cursor _).2.1 (by decide)).1,
   ((C8_next_previous_cursor _).2.2 (by decide) (by decide)).2.2⟩

/-! ## Claim C9 — pause and stop coincide -/

/-- C9: `pauseSlideshow` and `stopSlideshow` produce literally the same
result (return value and state — both only clear the active flag), and a
tick on the resulting inactive state changes nothing and performs no
advance, so the slideshow cannot move again until `startSlideshow` sets
the flag anew. -/
theorem C9_pause_stop_equivalent :
    (∀ s : SMState, pauseSlideshow s = stopSlideshow s) ∧
    (∀ (cfg : SlideshowConfig) (now draw : Nat) (s : SMState),
      updateSlideshow cfg now draw (pauseSlideshow s).2 = ((pauseSlideshow s).2, 0)) :=
  ⟨fun _ => rfl, fun cfg now draw s => by simp [updateSlideshow, pauseSlideshow]⟩

/-! ## Claim C10 — rescans reset the cursor -/

/-- C10: `refreshImageList` is exactly `scanSDCard`, and whenever the
enumeration is reachable (the `/images` directory or the root opened),
the completed scan leaves the cursor at 0 if any supported file was
found and at the sentinel `-1` otherwise — regardless of the previous
selection. -/
theorem C10_scan_resets_cursor (u rk : Bool) (entries : List DirEntry) (prev : BrowserState) :
    refreshImageList u rk entries prev = scanSDCard u rk entries prev ∧
    ((u || rk) = true →
      ((scanSDCard u rk entries prev).imageList.isEmpty = true →
        (scanSDCard u rk entries prev).currentIndex = -1) ∧
      ((scanSDCard u rk entries prev).imageList.isEmpty = false →
        (scanSDCard u rk entries prev).currentIndex = 0)) := by
  refine ⟨rfl, fun h => ?_⟩
  have hg : (!u && !rk) = false := by
    cases u <;> cases rk <;> simp_all
  constructor <;>
    · intro h2
      simp only [scanSDCard, hg, Bool.false_eq_true, if_neg, not_false_eq_true] at h2 ⊢
      simp_all

/-- C10 witness: a root scan that finds one supported file resets the
cursor from a stale previous selection to 0. -/
theorem C10_scan_resets_cursor_witness :
    (scanSDCard false true [⟨"a.raw", false⟩] ⟨["/zz.raw"], 7⟩).currentIndex = 0 :=
  ((C10_scan_resets_cursor false true [⟨"a.raw", false⟩] ⟨["/zz.raw"], 7⟩).2
    (by decide)).2 (by decide)

end Expositor
